import Mathlib

/-!
Verification development for the uStack userspace TCP/IP stack
(files `src/transport/tcb.hpp`, `src/transport/tcb_manager.hpp`,
`socket.hpp`, `check_backlog.cpp`).

The C++ sources are shallowly embedded below.  Machine integers
(`uint32_t`, `uint16_t`) are modelled as `Nat` with an explicit
reduction modulo 2^32 (resp. 2^16) at every point where the C++ code
stores into a fixed-width field.  `std::deque` / `circle_buffer` /
`std::vector` become `List`; `std::map` / `std::unordered_map` become
association lists with the same first-match lookup and in-place update
semantics; `std::optional` becomes `Option`; `std::chrono` timestamps
become a `Nat` clock value passed in by the caller.
-/

namespace uStack

/-- Reduction modulo 2^32, applied wherever the C++ code assigns to a
`uint32_t` field or computes with `uint32_t` operands. -/
def u32 (x : Nat) : Nat := x % 4294967296

/-- Reduction modulo 2^16, applied wherever the C++ code assigns to a
`uint16_t` field. -/
def u16 (x : Nat) : Nat := x % 65536

/-- TCP state constants.  Modelled: `defination.hpp` is not under
`src/`; the constants are `int` enumerators there.  Only their
distinctness is used by any proof below. -/
def TCP_CLOSED : Nat := 0

def TCP_LISTEN : Nat := 1

def TCP_SYN_SENT : Nat := 2

def TCP_SYN_RECEIVED : Nat := 3

def TCP_ESTABLISHED : Nat := 4

def TCP_FIN_WAIT_1 : Nat := 5

def TCP_FIN_WAIT_2 : Nat := 6

def TCP_CLOSE_WAIT : Nat := 7

def TCP_CLOSING : Nat := 8

def TCP_LAST_ACK : Nat := 9

def TCP_TIME_WAIT : Nat := 10

/-- Endpoint (IPv4 address, port), `ipv4_port_t` from `packets.hpp`.
Both components are non-optional here: every use below is guarded by a
hypothesis that the corresponding `std::optional` fields are set, which
is exactly the condition under which the C++ `.value()` calls are
defined. -/
structure ipv4_port_t where
  ipv4_addr : Nat
  port_addr : Nat
deriving DecidableEq, Repr

/-- Connection key `two_ends_t` from `packets.hpp` (remote endpoint,
local endpoint). -/
structure two_ends_t where
  remote_info : ipv4_port_t
  local_info : ipv4_port_t
deriving DecidableEq, Repr

/-- TCP header fields, as read and written by `tcb.hpp`.  Modelled:
`tcp_header.hpp` is not under `src/`; the field set is taken from its
uses in `tcb.hpp` and from the mock in `verify_syntax.cpp`
(`size() = 20`).  All fields default to zero, matching a
value-initialised header object. -/
structure tcp_header_t where
  src_port : Nat := 0
  dst_port : Nat := 0
  seq_no : Nat := 0
  ack_no : Nat := 0
  window_size : Nat := 0
  header_length : Nat := 0
  ACK : Bool := false
  SYN : Bool := false
  FIN : Bool := false
  RST : Bool := false
deriving DecidableEq, Repr

/-- The value of `tcp_header_t::size()` (20 bytes, from the
`verify_syntax.cpp` mock and the spec wire format). -/
def tcp_header_size : Nat := 20

/-- Packet buffer contents, `base_packet` as used by `tcb.hpp`.
Modelled: `base_packet.hpp` is not under `src/`.  A TCP segment buffer
always consists of an encoded 20-byte header followed by the payload
bytes, so the buffer is modelled as the header value plus the payload
byte list; `get_remaining_len` is the total byte length. -/
structure base_packet where
  header : tcp_header_t
  payload : List Nat
deriving DecidableEq, Repr

/-- The C++ `base_packet::get_remaining_len()` on a fully built TCP
segment buffer: header bytes plus payload bytes. -/
def base_packet.get_remaining_len (b : base_packet) : Nat :=
  tcp_header_size + b.payload.length

/-- `tcp_packet_t` from `packets.hpp`. -/
structure tcp_packet_t where
  proto : Nat
  remote_info : Option ipv4_port_t
  local_info : Option ipv4_port_t
  buffer : base_packet
deriving DecidableEq, Repr

/-- `send_state_t` from `tcb.hpp` (the `std::chrono` fields `rttvar`,
`srtt`, `rto` are carried as abstract `Nat` tick counts). -/
structure send_state_t where
  unacknowledged : Nat := 0
  next : Nat := 0
  window : Nat := 0
  window_sale : Nat := 0
  mss : Nat := 1460
  cwnd : Nat := 0
  ssthresh : Nat := 0
  dupacks : Nat := 0
  retransmits : Nat := 0
  backoff : Nat := 0
  rttvar : Nat := 0
  srtt : Nat := 0
  rto : Nat := 0
  bytes_in_flight : Nat := 0
  last_ack_no : Nat := 0
deriving DecidableEq, Repr

/-- `receive_state_t` from `tcb.hpp`. -/
structure receive_state_t where
  next : Nat := 0
  window : Nat := 0
  window_scale : Nat := 0
  mss : Nat := 0
deriving DecidableEq, Repr

/-- `retransmit_entry_t` from `tcb.hpp`; `sent_time` is the `Nat`
clock value at construction. -/
structure retransmit_entry_t where
  seq_no : Nat
  data_len : Nat
  data_copy : List Nat
  sent_time : Nat
  retransmit_count : Nat := 0
deriving DecidableEq, Repr

/-- `tcb_t` from `tcb.hpp`.  The `_active_tcbs` and `_listener`
back-references are pointer plumbing into the manager and are not part
of any claim about `tcb_t` itself; the queues of raw packets keep only
their buffers. -/
structure tcb_t where
  state : Nat
  next_state : Nat
  remote_info : Option ipv4_port_t
  local_info : Option ipv4_port_t
  send_queue : List base_packet := []
  receive_queue : List base_packet := []
  ctl_packets : List tcp_packet_t := []
  retransmit_queue : List retransmit_entry_t := []
  send : send_state_t := {}
  receive : receive_state_t := {}
deriving DecidableEq, Repr

/-- Port of a possibly-absent endpoint; in the C++ source this is
`info->port_addr.value()`, whose defined executions are exactly those
where the optionals are engaged — theorems below carry that as a
hypothesis, so the default value is never reached in any claim. -/
def port_of (o : Option ipv4_port_t) : Nat :=
  (o.getD { ipv4_addr := 0, port_addr := 0 }).port_addr

namespace tcb_t

/-- `tcb_t::track_bytes_sent` (tcb.hpp:120-122): `bytes_in_flight += bytes`. -/
def track_bytes_sent (t : tcb_t) (bytes : Nat) : tcb_t :=
  { t with send := { t.send with bytes_in_flight := u32 (t.send.bytes_in_flight + bytes) } }

/-- `tcb_t::track_sent_segment` (tcb.hpp:125-155): if the buffer is no
longer than the 20-byte TCP header, do nothing; otherwise append a
retransmit entry for the payload at sequence number `send.next` and add
the payload length to `bytes_in_flight`. -/
def track_sent_segment (t : tcb_t) (now : Nat) (packet : tcp_packet_t) : tcb_t :=
  let total_size := packet.buffer.get_remaining_len
  if total_size ≤ tcp_header_size then t
  else
    let data_len := total_size - tcp_header_size
    let entry : retransmit_entry_t :=
      { seq_no := t.send.next
        data_len := data_len
        data_copy := packet.buffer.payload
        sent_time := now
        retransmit_count := 0 }
    let t1 := { t with retransmit_queue := t.retransmit_queue ++ [entry] }
    t1.track_bytes_sent data_len

/-- `tcb_t::remove_acked_segments` (tcb.hpp:158-174): erase every entry
whose `seq_no + data_len` (computed in `uint32_t`, hence modulo 2^32)
is `<=` `ack_no` under the plain unsigned order.  No other field of the
TCB is modified. -/
def remove_acked_segments (t : tcb_t) (ack_no : Nat) : tcb_t :=
  { t with retransmit_queue :=
      t.retransmit_queue.filter (fun e => decide (ack_no < u32 (e.seq_no + e.data_len))) }

/-- `tcb_t::on_congestion_event` (tcb.hpp:233-244). -/
def on_congestion_event (t : tcb_t) : tcb_t :=
  let ssthresh := if 2 * t.send.mss < t.send.cwnd then t.send.cwnd / 2 else 2 * t.send.mss
  { t with send := { t.send with
      ssthresh := u32 ssthresh
      cwnd := t.send.mss
      dupacks := 0 } }

/-- `tcb_t::enter_fast_recovery` (tcb.hpp:248-259):
`ssthresh = (cwnd > 2*mss) ? cwnd/2 : 2*mss`, then
`cwnd = ssthresh + 3*mss`. -/
def enter_fast_recovery (t : tcb_t) : tcb_t :=
  let ssthresh := u32 (if 2 * t.send.mss < t.send.cwnd then t.send.cwnd / 2 else 2 * t.send.mss)
  { t with send := { t.send with
      ssthresh := ssthresh
      cwnd := u32 (ssthresh + 3 * t.send.mss) } }

/-- `tcb_t::inflate_window_for_fast_recovery` (tcb.hpp:262-266). -/
def inflate_window_for_fast_recovery (t : tcb_t) : tcb_t :=
  { t with send := { t.send with cwnd := u32 (t.send.cwnd + t.send.mss) } }

/-- `tcb_t::deflate_window_exit_fast_recovery` (tcb.hpp:269-274). -/
def deflate_window_exit_fast_recovery (t : tcb_t) : tcb_t :=
  { t with send := { t.send with cwnd := t.send.ssthresh } }

/-- `tcb_t::init_congestion_control` (tcb.hpp:108-116). -/
def init_congestion_control (t : tcb_t) : tcb_t :=
  { t with send := { t.send with
      cwnd := t.send.mss
      ssthresh := 65536
      bytes_in_flight := 0 } }

/-- `tcb_t::can_send` (tcb.hpp:280-287): allow when `cwnd == 0`, else
require `bytes_in_flight < cwnd`. -/
def can_send (t : tcb_t) : Bool :=
  if t.send.cwnd = 0 then true
  else decide (t.send.bytes_in_flight < t.send.cwnd)

/-- `tcb_t::prepare_data_optional` (tcb.hpp:289-291): unconditionally
`std::nullopt`; the `option_len` out-parameter is left at 0. -/
def prepare_data_optional (_t : tcb_t) : Option base_packet :=
  none

/-- `tcb_t::make_packet` (tcb.hpp:293-332).  `prepare_data_optional`
returns nothing, so the buffer is a fresh 20-byte header-only packet.
ACK is always set; SYN is set exactly when `next_state ==
TCP_SYN_RECEIVED`; no other flag is assigned.  After building,
`state := next_state` (the source guards the store with an inequality
test, which yields the same state). -/
def make_packet (t : tcb_t) : tcp_packet_t × tcb_t :=
  let option_len := 0
  let hdr : tcp_header_t :=
    { src_port := port_of t.local_info
      dst_port := port_of t.remote_info
      ack_no := t.receive.next
      seq_no := t.send.next
      window_size := 0xFAF0
      header_length := (tcp_header_size + option_len) / 4
      ACK := true
      SYN := decide (t.next_state = TCP_SYN_RECEIVED) }
  let out_packet : tcp_packet_t :=
    { proto := 0x06
      remote_info := t.remote_info
      local_info := t.local_info
      buffer := { header := hdr, payload := [] } }
  let t2 := if t.next_state ≠ t.state then { t with state := t.next_state } else t
  (out_packet, t2)

/-- `tcb_t::gather_packet` (tcb.hpp:334-342): pop `ctl_packets` first;
else `make_packet` when `can_send()`; else nothing. -/
def gather_packet (t : tcb_t) : Option tcp_packet_t × tcb_t :=
  match t.ctl_packets with
  | p :: rest => (some p, { t with ctl_packets := rest })
  | [] =>
    if t.can_send then (some (t.make_packet).1, (t.make_packet).2)
    else (none, t)

/-- The segment rebuilt by `tcb_t::retransmit_segment` (tcb.hpp:185-211)
for a queue entry: original sequence number, current `receive.next` as
ack, ACK bit, window 0xFAF0, and the saved payload copy. -/
def rebuild_packet (t : tcb_t) (e : retransmit_entry_t) : tcp_packet_t :=
  { proto := 0x06
    remote_info := t.remote_info
    local_info := t.local_info
    buffer :=
      { header :=
          { src_port := port_of t.local_info
            dst_port := port_of t.remote_info
            seq_no := e.seq_no
            ack_no := t.receive.next
            window_size := 0xFAF0
            header_length := tcp_header_size / 4
            ACK := true }
        payload := e.data_copy } }

/-- Search loop of `tcb_t::retransmit_segment` (tcb.hpp:180-226): walk
the queue; at the first entry whose `seq_no` matches, bump its
`retransmit_count`, refresh `sent_time`, and report the updated queue;
otherwise report failure. -/
def retransmit_find (seq_no now : Nat) :
    List retransmit_entry_t → Option (List retransmit_entry_t × retransmit_entry_t)
  | [] => none
  | e :: rest =>
    if e.seq_no = seq_no then
      some (({ e with retransmit_count := u16 (e.retransmit_count + 1), sent_time := now }) :: rest, e)
    else
      match retransmit_find seq_no now rest with
      | none => none
      | some (rest2, hit) => some (e :: rest2, hit)

/-- `tcb_t::retransmit_segment` (tcb.hpp:178-229): on a hit, push the
rebuilt segment onto `ctl_packets`, update the entry statistics and
return true; on a miss return false with the TCB untouched. -/
def retransmit_segment (t : tcb_t) (seq_no now : Nat) : Bool × tcb_t :=
  match retransmit_find seq_no now t.retransmit_queue with
  | none => (false, t)
  | some (q2, hit) =>
    (true, { t with
        retransmit_queue := q2
        ctl_packets := t.ctl_packets ++ [t.rebuild_packet hit] })

end tcb_t

/-- Association-list lookup with the first-match semantics of the C++
map `find` calls in `tcb_manager.hpp`. -/
def alookup {α β : Type} [DecidableEq α] (k : α) : List (α × β) → Option β
  | [] => none
  | (k2, v) :: rest => if k2 = k then some v else alookup k rest

/-- Association-list update with the semantics of `map[k] = v`:
overwrite the existing binding or append a fresh one. -/
def aupdate {α β : Type} [DecidableEq α] (k : α) (v : β) : List (α × β) → List (α × β)
  | [] => [(k, v)]
  | (k2, v2) :: rest => if k2 = k then (k, v) :: rest else (k2, v2) :: aupdate k v rest

/-- `port_connection_stats_t` from `tcb_manager.hpp`. -/
structure port_connection_stats_t where
  current : Nat := 0
  max : Nat := 0
  peak : Nat := 0
  total_created : Nat := 0
  total_rejected : Nat := 0
deriving DecidableEq, Repr

/-- The environment, abstracted as the composition of `std::getenv`
and `std::stoul`: `some v` when the variable is present and parses to
the unsigned value `v`, `none` when it is absent or `stoul` throws
(invalid or out of range for `unsigned long`).  The `uint32_t`
narrowing done by the assignment `uint32_t limit = std::stoul(...)` is
applied explicitly at the use sites below. -/
def Env : Type := String → Option Nat

/-- `connection_limits::DEFAULT_MAX_CONNECTIONS` (tcb_manager.hpp:24). -/
def DEFAULT_MAX_CONNECTIONS : Nat := 1000

/-- `connection_limits::get_max_connections` (tcb_manager.hpp:27-38):
the parsed `MAX_CONNECTIONS` value when positive, else the default. -/
def get_max_connections (env : Env) : Nat :=
  match env "MAX_CONNECTIONS" with
  | some v =>
    let limit := u32 v
    if 0 < limit then limit else DEFAULT_MAX_CONNECTIONS
  | none => DEFAULT_MAX_CONNECTIONS

/-- `connection_limits::get_port_limit` (tcb_manager.hpp:43-57): the
parsed `MAX_CONNECTIONS_PORT_<port>` value when positive, else the
global value. -/
def get_port_limit (env : Env) (port : Nat) : Nat :=
  match env ("MAX_CONNECTIONS_PORT_" ++ Nat.repr port) with
  | some v =>
    let limit := u32 v
    if 0 < limit then limit else get_max_connections env
  | none => get_max_connections env

/-- `backlog_stats_t` from `socket.hpp`. -/
structure backlog_stats_t where
  current : Nat := 0
  max : Nat := 0
  peak : Nat := 0
  total_queued : Nat := 0
  total_rejected : Nat := 0
deriving DecidableEq, Repr

/-- `listener_t` from `socket.hpp` (the `fd`, `proto` and `acceptable`
fields are plumbing not touched by any claim; `acceptors` is the ring
of established-but-unaccepted TCBs). -/
structure listener_t where
  acceptors : List tcb_t := []
  local_info : Option ipv4_port_t := none
  backlog_stats : backlog_stats_t := {}
deriving DecidableEq, Repr

/-- `connection_limits::DEFAULT_MAX_BACKLOG` (check_backlog.cpp). -/
def DEFAULT_MAX_BACKLOG : Nat := 128

/-- `connection_limits::get_backlog_limit` (check_backlog.cpp): the
parsed `MAX_BACKLOG_PORT_<port>` value when positive, else 128. -/
def get_backlog_limit (env : Env) (port : Nat) : Nat :=
  match env ("MAX_BACKLOG_PORT_" ++ Nat.repr port) with
  | some v =>
    let limit := u32 v
    if 0 < limit then limit else DEFAULT_MAX_BACKLOG
  | none => DEFAULT_MAX_BACKLOG

/-- `tcb_t::listen_finish` (tcb.hpp:100-104): when the TCB was born
from a listener, push it onto that listener ring unconditionally.  No
field of `backlog_stats` is read or written here. -/
def listen_finish (L : listener_t) (t : tcb_t) : listener_t :=
  { L with acceptors := L.acceptors ++ [t] }

/-- Modelled from the spec: the backlog admission step guarding a
listener ring.  The enforcement code is not under `src/` — `src/`
holds only the `listener_t` / `backlog_stats_t` declarations
(socket.hpp), the `get_backlog_limit` environment reader
(check_backlog.cpp) and the unconditional `listen_finish` push
(tcb.hpp:100-104); the call-site that consults `backlog_stats` lives in
the missing state-machine file.  Per spec sections 6 and 8: when a TCB
reaches ESTABLISHED, if `current < max` it is queued onto `acceptors`
(updating `current`, `total_queued`, `peak`), otherwise it is rejected
and `total_rejected` is incremented. -/
def backlog_enqueue (L : listener_t) (t : tcb_t) : Bool × listener_t :=
  if L.backlog_stats.current < L.backlog_stats.max then
    let bs := { L.backlog_stats with
        current := u32 (L.backlog_stats.current + 1)
        total_queued := u32 (L.backlog_stats.total_queued + 1) }
    (true, { L with
        acceptors := L.acceptors ++ [t]
        backlog_stats := { bs with peak := max bs.peak bs.current } })
  else
    (false, { L with backlog_stats := { L.backlog_stats with
        total_rejected := u32 (L.backlog_stats.total_rejected + 1) } })

/-- `tcb_manager` state (tcb_manager.hpp:102-117).  The work ring
`active_tcbs` holds shared handles into `tcbs` and is not needed by
any claim below. -/
structure tcb_manager where
  tcbs : List (two_ends_t × tcb_t) := []
  active_ports : List ipv4_port_t := []
  listeners : List (ipv4_port_t × listener_t) := []
  max_connections : Nat := DEFAULT_MAX_CONNECTIONS
  total_connections_created : Nat := 0
  peak_connections : Nat := 0
  port_stats : List (Nat × port_connection_stats_t) := []
deriving DecidableEq, Repr

/-- The `tcb_manager` constructor (tcb_manager.hpp:104-107): the global
limit is read from the environment exactly here, once. -/
def tcb_manager.init (env : Env) : tcb_manager :=
  { tcbs := []
    active_ports := []
    listeners := []
    max_connections := get_max_connections env
    total_connections_created := 0
    peak_connections := 0
    port_stats := [] }

/-- Port statistics as observed by `register_tcb` after its
initialise-if-absent step: the cached record when the port was seen
before, else a fresh record whose `max` is read from the environment. -/
def effective_port_stats (env : Env) (m : tcb_manager) (port : Nat) : port_connection_stats_t :=
  match alookup port m.port_stats with
  | some s => s
  | none => { max := get_port_limit env port }

/-- The fresh TCB built by `register_tcb` (tcb_manager.hpp:271-273) via
the `tcb_t` constructor (tcb.hpp:85-93): `state = TCP_CLOSED`, queues
empty.  The constructor leaves `next_state` uninitialised; it is
modelled as `TCP_CLOSED` and is overwritten before any use on every
path in `receive`. -/
def new_tcb (remote loc : ipv4_port_t) : tcb_t :=
  { state := TCP_CLOSED
    next_state := TCP_CLOSED
    remote_info := some remote
    local_info := some loc }

/-- Initialise-if-absent step of `register_tcb`
(tcb_manager.hpp:239-243): on first sight of a port, cache the
environment limit in `port_stats[port].max`. -/
def init_port_stats (env : Env) (m : tcb_manager) (port : Nat) :
    List (Nat × port_connection_stats_t) :=
  match alookup port m.port_stats with
  | none => aupdate port ({ max := get_port_limit env port } : port_connection_stats_t) m.port_stats
  | some _ => m.port_stats

/-- `tcb_manager::register_tcb` (tcb_manager.hpp:227-293): initialise
the per-port statistics on first sight of the port (caching the
environment limit in `port_stats[port].max`), reject when the global
or the per-port limit is reached (counting the rejection), otherwise
insert the fresh TCB and update the statistics. -/
def register_tcb (env : Env) (m : tcb_manager) (two_end : two_ends_t) : Bool × tcb_manager :=
  let port := two_end.local_info.port_addr
  let ps1 := init_port_stats env m port
  let stats := (alookup port ps1).getD {}
  let port_current := stats.current
  let port_max := stats.max
  if m.max_connections ≤ m.tcbs.length then
    (false,
      { m with port_stats :=
                 aupdate port { stats with total_rejected := u32 (stats.total_rejected + 1) } ps1 })
  else if port_max ≤ port_current then
    (false,
      { m with port_stats :=
                 aupdate port { stats with total_rejected := u32 (stats.total_rejected + 1) } ps1 })
  else
    let tcbs2 := aupdate two_end (new_tcb two_end.remote_info two_end.local_info) m.tcbs
    let peak2 := if m.peak_connections < tcbs2.length then tcbs2.length else m.peak_connections
    let stats2 := { stats with
        current := u32 (stats.current + 1)
        total_created := u32 (stats.total_created + 1) }
    let stats3 := if stats2.peak < stats2.current then { stats2 with peak := stats2.current } else stats2
    (true, { m with
        tcbs := tcbs2
        total_connections_created := u32 (m.total_connections_created + 1)
        peak_connections := peak2
        port_stats := aupdate port stats3 ps1 })

/-- Externally visible side effects of `tcb_manager::receive`
(tcb_manager.hpp:295-341): the RST emitted through
`tcp_transmit::tcp_send_rst_reject` on admission failure, and the
socket-manager wakeup notifications. -/
inductive rx_event where
  | rst_reject (in_tcp : tcp_header_t) (remote loc : ipv4_port_t)
  | mark_listener_acceptable (loc : ipv4_port_t)
  | mark_socket_readable (key : two_ends_t)
deriving DecidableEq, Repr

/-- `tcb_manager::receive` (tcb_manager.hpp:295-341).  The state
machine `tcp_transmit::tcp_in` lives in a file that is not under
`src/`; it is taken as an explicit functional parameter `tcpIn`
mutating the addressed TCB, which is all `receive` assumes of it.
`tcp_header_t::consume` on the inbound buffer yields the header the
buffer model carries. -/
def tcb_manager.receive (tcpIn : tcb_t → tcp_packet_t → tcb_t) (env : Env)
    (m : tcb_manager) (in_packet : tcp_packet_t) : tcb_manager × List rx_event :=
  match in_packet.remote_info, in_packet.local_info with
  | some remote, some loc =>
    let two_end : two_ends_t := { remote_info := remote, local_info := loc }
    match alookup two_end m.tcbs with
    | some t =>
      let t2 := tcpIn t in_packet
      let m2 := { m with tcbs := aupdate two_end t2 m.tcbs }
      (m2, if t2.receive_queue ≠ [] then [rx_event.mark_socket_readable two_end] else [])
    | none =>
      if m.active_ports.contains loc then
        let (registered, m1) := register_tcb env m two_end
        if registered = false then
          (m1, [rx_event.rst_reject in_packet.buffer.header remote loc])
        else
          match alookup two_end m1.tcbs with
          | some t =>
            let t1 := { t with state := TCP_LISTEN, next_state := TCP_LISTEN }
            let t2 := tcpIn t1 in_packet
            let m2 := { m1 with tcbs := aupdate two_end t2 m1.tcbs }
            let acceptors_nonempty : Bool :=
              match alookup loc m2.listeners with
              | some L => !L.acceptors.isEmpty
              | none => false
            let ev1 := if acceptors_nonempty then [rx_event.mark_listener_acceptable loc] else []
            let ev2 := if t2.receive_queue ≠ [] then [rx_event.mark_socket_readable two_end] else []
            (m2, ev1 ++ ev2)
          | none => (m1, [])
      else (m, [])
  | _, _ => (m, [])

/-- Difference `a - b` in 32-bit sequence space (spec-side notion, for
stating wrap-around claims). -/
def seq_sub (a b : Nat) : Nat := u32 (u32 a + (4294967296 - u32 b))

/-- Strict order of TCP sequence space (spec-side notion): `a` precedes
`b` when `b - a` taken modulo 2^32 lies strictly between 0 and 2^31. -/
def seq_lt (a b : Nat) : Prop :=
  0 < seq_sub b a ∧ seq_sub b a < 2147483648

/-- Fixture: an established TCB about to track a 5-byte data segment. -/
def c1_tcb : tcb_t :=
  { state := TCP_ESTABLISHED
    next_state := TCP_ESTABLISHED
    remote_info := some { ipv4_addr := 1, port_addr := 40000 }
    local_info := some { ipv4_addr := 2, port_addr := 30000 }
    send := { next := 100 } }

/-- Fixture: an outbound segment of 20 header bytes plus 5 payload
bytes. -/
def c1_packet : tcp_packet_t :=
  { proto := 0x06
    remote_info := some { ipv4_addr := 1, port_addr := 40000 }
    local_info := some { ipv4_addr := 2, port_addr := 30000 }
    buffer := { header := {}, payload := [104, 101, 108, 108, 111] } }

/-- Fixture: a TCB with `cwnd = 5` and `mss = 2`, inside the window
band `2*mss < cwnd < 4*mss` where the fast-recovery threshold formula
of the source deviates from `max(cwnd/2, 2*mss)`. -/
def c2_tcb : tcb_t :=
  { state := TCP_ESTABLISHED
    next_state := TCP_ESTABLISHED
    remote_info := some { ipv4_addr := 1, port_addr := 40000 }
    local_info := some { ipv4_addr := 2, port_addr := 30000 }
    send := { mss := 2, cwnd := 5 } }

/-- Fixture: a TCB about to emit a close transition
(`next_state = FIN_WAIT_1`). -/
def c3_tcb : tcb_t :=
  { state := TCP_ESTABLISHED
    next_state := TCP_FIN_WAIT_1
    remote_info := some { ipv4_addr := 1, port_addr := 40000 }
    local_info := some { ipv4_addr := 2, port_addr := 30000 }
    receive := { next := 1006 }
    send := { next := 77 } }

/-- Fixture: a TCB whose single retransmit entry spans the sequence
wrap: `[2^32 - 2, 2)`, with `send.unacknowledged = 2^32 - 2` and
`send.next = 2`. -/
def c5_tcb : tcb_t :=
  { state := TCP_ESTABLISHED
    next_state := TCP_ESTABLISHED
    remote_info := some { ipv4_addr := 1, port_addr := 40000 }
    local_info := some { ipv4_addr := 2, port_addr := 30000 }
    send := { unacknowledged := 4294967294, next := 2 }
    retransmit_queue := [{ seq_no := 4294967294, data_len := 4, data_copy := [9, 9, 9, 9], sent_time := 0 }] }

/-- Fixture: a TCB with one queued control packet, for exercising the
priority path of `gather_packet`. -/
def c6_ctl_packet : tcp_packet_t :=
  { proto := 0x06
    remote_info := some { ipv4_addr := 1, port_addr := 40000 }
    local_info := some { ipv4_addr := 2, port_addr := 30000 }
    buffer := { header := { RST := true }, payload := [] } }

/-- Fixture: a TCB whose `ctl_packets` ring is empty and whose
congestion window is uninitialised (`cwnd = 0`). -/
def c6_tcb : tcb_t :=
  { state := TCP_SYN_RECEIVED
    next_state := TCP_SYN_RECEIVED
    remote_info := some { ipv4_addr := 1, port_addr := 40000 }
    local_info := some { ipv4_addr := 2, port_addr := 30000 } }

/-- Fixture: trivial state machine stand-in for `tcp_transmit::tcp_in`
(identity on the TCB), used only to instantiate witnesses. -/
def tcp_in_id : tcb_t → tcp_packet_t → tcb_t := fun t _ => t

/-- Fixture: empty environment (no limit variables set). -/
def env_empty : Env := fun _ => none

/-- Fixture: environment with `MAX_CONNECTIONS=7` and
`MAX_CONNECTIONS_PORT_30000=3`. -/
def env_w : Env := fun s =>
  if s = "MAX_CONNECTIONS" then some 7
  else if s = "MAX_CONNECTIONS_PORT_30000" then some 3
  else none

/-- Fixture: a manager whose global limit is 0, so every admission
fails. -/
def m_full : tcb_manager :=
  { tcbs := []
    active_ports := [{ ipv4_addr := 2, port_addr := 30000 }]
    listeners := []
    max_connections := 0
    total_connections_created := 0
    peak_connections := 0
    port_stats := [] }

/-- Fixture: the inbound SYN segment of a new connection attempt. -/
def syn_packet : tcp_packet_t :=
  { proto := 0x06
    remote_info := some { ipv4_addr := 1, port_addr := 40000 }
    local_info := some { ipv4_addr := 2, port_addr := 30000 }
    buffer := { header := { SYN := true, seq_no := 1000 }, payload := [] } }

/-- Fixture: a listener with room for two pending connections. -/
def l_small : listener_t :=
  { acceptors := []
    local_info := some { ipv4_addr := 2, port_addr := 30000 }
    backlog_stats := { max := 2 } }

/-- Helper: `remove_acked_segments` rewrites the retransmit queue as a
filter and touches nothing else. -/
theorem remove_acked_segments_queue (t : tcb_t) (ack_no : Nat) :
    (t.remove_acked_segments ack_no).retransmit_queue
      = t.retransmit_queue.filter (fun e => decide (ack_no < u32 (e.seq_no + e.data_len))) :=
  rfl

/-- Helper: `remove_acked_segments` leaves the whole send state — in
particular `bytes_in_flight` — unchanged. -/
theorem remove_acked_segments_send (t : tcb_t) (ack_no : Nat) :
    (t.remove_acked_segments ack_no).send = t.send :=
  rfl

/-- Helper: effect of `track_sent_segment` on a data-bearing segment. -/
theorem track_sent_segment_data (t : tcb_t) (now : Nat) (packet : tcp_packet_t)
    (h : tcp_header_size < packet.buffer.get_remaining_len) :
    t.track_sent_segment now packet =
      { t with
        retransmit_queue := t.retransmit_queue ++
          [{ seq_no := t.send.next
             data_len := packet.buffer.get_remaining_len - tcp_header_size
             data_copy := packet.buffer.payload
             sent_time := now
             retransmit_count := 0 }]
        send := { t.send with
          bytes_in_flight :=
            u32 (t.send.bytes_in_flight + (packet.buffer.get_remaining_len - tcp_header_size)) } } := by
  unfold tcb_t.track_sent_segment tcb_t.track_bytes_sent
  rw [if_neg (by omega)]

/-- C1: the claim asserts that `remove_acked_segments(ack)` both drops
every fully-acknowledged retransmit entry and decreases
`bytes_in_flight` by the dropped bytes, so that `track_sent_segment`
followed by `remove_acked_segments(seq_no + L)` restores
`bytes_in_flight`.  Counterexample: tracking a 5-byte payload and then
acknowledging it removes the queue entry but leaves `bytes_in_flight`
at 5, not at its prior value 0 — `remove_acked_segments` never writes
`bytes_in_flight`. -/
theorem C1_counterexample :
    c1_tcb.send.bytes_in_flight = 0
    ∧ ((c1_tcb.track_sent_segment 0 c1_packet).remove_acked_segments 105).retransmit_queue = []
    ∧ ¬ (((c1_tcb.track_sent_segment 0 c1_packet).remove_acked_segments 105).send.bytes_in_flight
          = c1_tcb.send.bytes_in_flight) := by
  refine ⟨rfl, by decide, by decide⟩

/-- C1 (amended): `track_sent_segment` followed by
`remove_acked_segments (seq_no + L)` removes the entry added for the
segment (and every older entry whose 32-bit end is at most the ack),
but `bytes_in_flight` is not restored: it stays at its value after
`track_sent_segment`, because `remove_acked_segments` drops queue
entries by the plain unsigned comparison `seq_no + data_len <= ack`
without decreasing `bytes_in_flight`. -/
theorem C1_amended (t : tcb_t) (now : Nat) (packet : tcp_packet_t)
    (h : tcp_header_size < packet.buffer.get_remaining_len) :
    (((t.track_sent_segment now packet).remove_acked_segments
        (u32 (t.send.next + (packet.buffer.get_remaining_len - tcp_header_size)))).send.bytes_in_flight
      = u32 (t.send.bytes_in_flight + (packet.buffer.get_remaining_len - tcp_header_size)))
    ∧ (((t.track_sent_segment now packet).remove_acked_segments
          (u32 (t.send.next + (packet.buffer.get_remaining_len - tcp_header_size)))).retransmit_queue
        = t.retransmit_queue.filter (fun e =>
            decide (u32 (t.send.next + (packet.buffer.get_remaining_len - tcp_header_size))
                      < u32 (e.seq_no + e.data_len))))
    ∧ (∀ (t0 : tcb_t) (ack : Nat),
        (t0.remove_acked_segments ack).send.bytes_in_flight = t0.send.bytes_in_flight
        ∧ (t0.remove_acked_segments ack).retransmit_queue
            = t0.retransmit_queue.filter (fun e => decide (ack < u32 (e.seq_no + e.data_len)))) := by
  rw [remove_acked_segments_send, remove_acked_segments_queue, track_sent_segment_data t now packet h]
  refine ⟨rfl, ?_, fun t0 ack => ⟨rfl, rfl⟩⟩
  simp [List.filter_append]

/-- Witness for `C1_amended` at the concrete 5-byte segment fixture. -/
theorem C1_amended_witness :
    tcp_header_size < c1_packet.buffer.get_remaining_len
    ∧ (((c1_tcb.track_sent_segment 0 c1_packet).remove_acked_segments
          (u32 (c1_tcb.send.next + (c1_packet.buffer.get_remaining_len - tcp_header_size)))).send.bytes_in_flight
        = u32 (c1_tcb.send.bytes_in_flight + (c1_packet.buffer.get_remaining_len - tcp_header_size))) :=
  ⟨by decide, (C1_amended c1_tcb 0 c1_packet (by decide)).1⟩

/-- C2: the claim asserts `ssthresh = max(cwnd/2, 2*MSS)` for all
`cwnd` and `mss`.  Counterexample: with `cwnd = 5` and `mss = 2`
(inside the band `2*mss < cwnd < 4*mss`) the source computes
`ssthresh = cwnd/2 = 2`, while `max(cwnd/2, 2*mss) = 4`. -/
theorem C2_counterexample :
    (c2_tcb.enter_fast_recovery).send.ssthresh = 2
    ∧ max (c2_tcb.send.cwnd / 2) (2 * c2_tcb.send.mss) = 4
    ∧ ¬ ((c2_tcb.enter_fast_recovery).send.ssthresh
          = max (c2_tcb.send.cwnd / 2) (2 * c2_tcb.send.mss)) := by
  refine ⟨by decide, by decide, by decide⟩

/-- C2 (amended): entering fast recovery sets
`ssthresh = cwnd/2` when `cwnd > 2*MSS` and `ssthresh = 2*MSS`
otherwise, then `cwnd = ssthresh + 3*MSS`; this agrees with the
claimed `max(cwnd/2, 2*MSS)` exactly outside the band
`2*MSS < cwnd < 4*MSS`. -/
theorem C2_amended (t : tcb_t) :
    ((t.enter_fast_recovery).send.ssthresh
        = u32 (if 2 * t.send.mss < t.send.cwnd then t.send.cwnd / 2 else 2 * t.send.mss))
    ∧ ((t.enter_fast_recovery).send.cwnd
        = u32 ((t.enter_fast_recovery).send.ssthresh + 3 * t.send.mss))
    ∧ (t.send.cwnd < 4294967296 → t.send.mss < 65536 →
        (t.send.cwnd ≤ 2 * t.send.mss ∨ 4 * t.send.mss ≤ t.send.cwnd) →
        (t.enter_fast_recovery).send.ssthresh = max (t.send.cwnd / 2) (2 * t.send.mss)) := by
  refine ⟨rfl, rfl, fun hcw hms hband => ?_⟩
  show u32 (if 2 * t.send.mss < t.send.cwnd then t.send.cwnd / 2 else 2 * t.send.mss)
      = max (t.send.cwnd / 2) (2 * t.send.mss)
  unfold u32
  by_cases hc : 2 * t.send.mss < t.send.cwnd
  · rw [if_pos hc]
    omega
  · rw [if_neg hc]
    omega

/-- Witness for `C2_amended` at `cwnd = 8`, `mss = 2` (outside the
deviation band, where the max formula does hold). -/
theorem C2_amended_witness :
    (({ c2_tcb with send := { c2_tcb.send with cwnd := 8 } } : tcb_t).enter_fast_recovery).send.ssthresh
      = max (8 / 2) (2 * 2) :=
  (C2_amended { c2_tcb with send := { c2_tcb.send with cwnd := 8 } }).2.2
    (by decide) (by decide) (Or.inr (by decide))

/-- C3: the claim asserts that `make_packet` sets the FIN bit on the
close transitions (FIN_WAIT_1, LAST_ACK).  Counterexample: with
`next_state = FIN_WAIT_1` the built segment carries no FIN —
`make_packet` never assigns the FIN flag. -/
theorem C3_counterexample :
    c3_tcb.next_state = TCP_FIN_WAIT_1
    ∧ (c3_tcb.make_packet).1.buffer.header.FIN = false
    ∧ ¬ ((c3_tcb.make_packet).1.buffer.header.FIN = true) := by
  refine ⟨rfl, by decide, by decide⟩

/-- C3 (amended): for every TCB with `local_info` and `remote_info`
set, `make_packet` builds a segment with the ACK bit set, the SYN bit
set if and only if `next_state = SYN_RECEIVED`, the FIN bit never set
(also on the close transitions), window `0xFAF0`, the endpoint ports
in the header; afterwards `state = next_state`. -/
theorem C3_amended (t : tcb_t) (rp lp : ipv4_port_t)
    (hr : t.remote_info = some rp) (hl : t.local_info = some lp) :
    (t.make_packet).1.buffer.header.ACK = true
    ∧ ((t.make_packet).1.buffer.header.SYN = true ↔ t.next_state = TCP_SYN_RECEIVED)
    ∧ (t.make_packet).1.buffer.header.FIN = false
    ∧ (t.make_packet).1.buffer.header.window_size = 0xFAF0
    ∧ (t.make_packet).1.buffer.header.src_port = lp.port_addr
    ∧ (t.make_packet).1.buffer.header.dst_port = rp.port_addr
    ∧ (t.make_packet).1.buffer.header.seq_no = t.send.next
    ∧ (t.make_packet).1.buffer.header.ack_no = t.receive.next
    ∧ (t.make_packet).2.state = t.next_state := by
  unfold tcb_t.make_packet
  refine ⟨rfl, ?_, rfl, rfl, ?_, ?_, rfl, rfl, ?_⟩
  · exact decide_eq_true_iff
  · simp [port_of, hl]
  · simp [port_of, hr]
  · by_cases hs : t.next_state ≠ t.state
    · simp [hs]
    · simp only [if_neg hs]
      omega

/-- Witness for `C3_amended` at the FIN_WAIT_1 fixture. -/
theorem C3_amended_witness :
    (c3_tcb.make_packet).1.buffer.header.ACK = true
    ∧ (c3_tcb.make_packet).1.buffer.header.FIN = false
    ∧ (c3_tcb.make_packet).2.state = c3_tcb.next_state := by
  have h := C3_amended c3_tcb { ipv4_addr := 1, port_addr := 40000 }
    { ipv4_addr := 2, port_addr := 30000 } rfl rfl
  exact ⟨h.1, h.2.2.1, h.2.2.2.2.2.2.2.2⟩

/-- C5: the claim asserts the comparisons in `remove_acked_segments`
are correct modulo 2^32 under TCP sequence ordering, keeping entries
that extend beyond the ack.  Counterexample: the entry spanning
`[2^32-2, 2)` (wrapped end 2) is removed by `ack = 2^32-1`, even
though that ack precedes the segment end in sequence order (the entry
is not fully acknowledged) — the source compares the wrapped 32-bit
end with the ack as plain unsigned integers. -/
theorem C5_counterexample :
    seq_lt 4294967295 (u32 (4294967294 + 4))
    ∧ c5_tcb.retransmit_queue.length = 1
    ∧ (c5_tcb.remove_acked_segments 4294967295).retransmit_queue = [] := by
  refine ⟨⟨by decide, by decide⟩, rfl, by decide⟩

/-- C5 (amended): `remove_acked_segments` compares the 32-bit segment
end `(seq_no + data_len) mod 2^32` against the ack as plain unsigned
numbers, not in TCP sequence order: an entry whose span wraps past
`2^32 - 1` is dropped exactly when its wrapped end is numerically at
most the ack — so an ack at or numerically beyond the wrapped end does
remove it, but a numerically larger ack that precedes the segment end
in sequence order removes it as well, and an entry survives exactly
when its wrapped end numerically exceeds the ack. -/
theorem C5_amended (t : tcb_t) (ack : Nat) :
    ((t.remove_acked_segments ack).retransmit_queue
        = t.retransmit_queue.filter (fun e => decide (ack < u32 (e.seq_no + e.data_len))))
    ∧ (∀ e ∈ t.retransmit_queue, 4294967296 ≤ e.seq_no + e.data_len →
        (u32 (e.seq_no + e.data_len) ≤ ack →
            e ∉ (t.remove_acked_segments ack).retransmit_queue)
        ∧ (ack < u32 (e.seq_no + e.data_len) →
            e ∈ (t.remove_acked_segments ack).retransmit_queue)) := by
  refine ⟨remove_acked_segments_queue t ack, fun e he _hwrap => ⟨fun hle hmem => ?_, fun hlt => ?_⟩⟩
  · rw [remove_acked_segments_queue] at hmem
    have := (List.mem_filter.mp hmem).2
    simp at this
    omega
  · rw [remove_acked_segments_queue]
    exact List.mem_filter.mpr ⟨he, by simpa using hlt⟩

/-- Witness for `C5_amended` at the wrap fixture: the wrapped entry is
removed by the in-sequence ack 2 sitting at its wrapped end. -/
theorem C5_amended_witness :
    (c5_tcb.remove_acked_segments 2).retransmit_queue
      = c5_tcb.retransmit_queue.filter (fun e => decide (2 < u32 (e.seq_no + e.data_len)))
    ∧ ({ seq_no := 4294967294, data_len := 4, data_copy := [9, 9, 9, 9], sent_time := 0 } : retransmit_entry_t)
        ∉ (c5_tcb.remove_acked_segments 2).retransmit_queue := by
  have h := C5_amended c5_tcb 2
  refine ⟨h.1, ?_⟩
  exact (h.2 { seq_no := 4294967294, data_len := 4, data_copy := [9, 9, 9, 9], sent_time := 0 }
    (by decide) (by decide)).1 (by decide)

/-- C6: `gather_packet` returns the front control packet whenever
`ctl_packets` is non-empty; with an empty control ring it returns
`make_packet` output exactly when `can_send()` holds and nothing
otherwise; and `can_send()` holds iff `cwnd = 0` or
`bytes_in_flight < cwnd`. -/
theorem C6_gather (t : tcb_t) :
    (∀ p rest, t.ctl_packets = p :: rest →
        t.gather_packet = (some p, { t with ctl_packets := rest }))
    ∧ (t.ctl_packets = [] → t.can_send = true →
        t.gather_packet = (some (t.make_packet).1, (t.make_packet).2))
    ∧ (t.ctl_packets = [] → t.can_send = false → t.gather_packet = (none, t))
    ∧ (t.can_send = true ↔ (t.send.cwnd = 0 ∨ t.send.bytes_in_flight < t.send.cwnd)) := by
  refine ⟨fun p rest hc => ?_, fun hc hs => ?_, fun hc hs => ?_, ?_⟩
  · unfold tcb_t.gather_packet
    rw [hc]
  · unfold tcb_t.gather_packet
    rw [hc, hs]
    rfl
  · unfold tcb_t.gather_packet
    rw [hc, hs]
    rfl
  · unfold tcb_t.can_send
    by_cases h0 : t.send.cwnd = 0
    · simp [h0]
    · simp [h0]

/-- Witness for `C6_gather`: the pre-ESTABLISHED fixture (`cwnd = 0`,
no control packets) yields `make_packet` output, and with a queued RST
the control ring takes priority. -/
theorem C6_gather_witness :
    c6_tcb.gather_packet = (some (c6_tcb.make_packet).1, (c6_tcb.make_packet).2)
    ∧ ({ c6_tcb with ctl_packets := [c6_ctl_packet] } : tcb_t).gather_packet
        = (some c6_ctl_packet, { ({ c6_tcb with ctl_packets := [c6_ctl_packet] } : tcb_t) with ctl_packets := [] }) :=
  ⟨(C6_gather c6_tcb).2.1 rfl (by decide),
   (C6_gather { c6_tcb with ctl_packets := [c6_ctl_packet] }).1 c6_ctl_packet [] rfl⟩

/-- C9: `prepare_data_optional` is unconditionally empty, so
`make_packet` always emits a bare 20-byte header segment with no
payload, and `track_sent_segment` on such a segment adds no retransmit
entry and no in-flight bytes — it leaves the TCB untouched. -/
theorem C9_no_data (t : tcb_t) (now : Nat) :
    t.prepare_data_optional = none
    ∧ (t.make_packet).1.buffer.payload = []
    ∧ (t.make_packet).1.buffer.get_remaining_len = tcp_header_size
    ∧ (∀ t2 : tcb_t, t2.track_sent_segment now (t.make_packet).1 = t2) := by
  refine ⟨rfl, rfl, rfl, fun t2 => ?_⟩
  unfold tcb_t.track_sent_segment
  rw [if_pos]
  show ((t.make_packet).1.buffer.get_remaining_len ≤ tcp_header_size)
  rfl

/-- Helper: the retransmit search loop misses when no entry carries
the requested sequence number. -/
theorem retransmit_find_none (s now : Nat) :
    ∀ q : List retransmit_entry_t, (∀ e ∈ q, e.seq_no ≠ s) →
      tcb_t.retransmit_find s now q = none := by
  intro q
  induction q with
  | nil => intro _; rfl
  | cons e rest ih =>
    intro h
    unfold tcb_t.retransmit_find
    rw [if_neg (h e (List.mem_cons_self e rest))]
    rw [ih (fun e2 he2 => h e2 (List.mem_cons_of_mem e he2))]

/-- Helper: the retransmit search loop stops at the first matching
entry, bumps its count, refreshes its timestamp and keeps everything
else in place. -/
theorem retransmit_find_hit (s now : Nat) (e : retransmit_entry_t) (q2 : List retransmit_entry_t)
    (he : e.seq_no = s) :
    ∀ q1 : List retransmit_entry_t, (∀ e2 ∈ q1, e2.seq_no ≠ s) →
      tcb_t.retransmit_find s now (q1 ++ e :: q2)
        = some (q1 ++ ({ e with retransmit_count := u16 (e.retransmit_count + 1), sent_time := now } :: q2), e) := by
  intro q1
  induction q1 with
  | nil =>
    intro _
    rw [List.nil_append, List.nil_append]
    simp [tcb_t.retransmit_find, he]
  | cons e1 rest ih =>
    intro h
    rw [List.cons_append]
    simp only [tcb_t.retransmit_find]
    rw [if_neg (h e1 (List.mem_cons_self e1 rest))]
    rw [ih (fun e2 he2 => h e2 (List.mem_cons_of_mem e1 he2))]
    rfl

/-- C10: `retransmit_segment(s)` returns false and leaves the TCB
unchanged when no queue entry has `seq_no = s`; at the first matching
entry it appends exactly one rebuilt segment (original sequence
number, current `receive.next` as ack, ACK bit, window 0xFAF0, the
saved payload) to `ctl_packets`, bumps only that entry's
`retransmit_count`, refreshes its `sent_time`, and changes nothing
else — queue membership, `bytes_in_flight` and all other send/receive
state are untouched. -/
theorem C10_retransmit (t : tcb_t) (s now : Nat) :
    ((∀ e ∈ t.retransmit_queue, e.seq_no ≠ s) → t.retransmit_segment s now = (false, t))
    ∧ (∀ (q1 : List retransmit_entry_t) (e : retransmit_entry_t) (q2 : List retransmit_entry_t),
        t.retransmit_queue = q1 ++ e :: q2 → (∀ e2 ∈ q1, e2.seq_no ≠ s) → e.seq_no = s →
        t.retransmit_segment s now =
          (true, { t with
              retransmit_queue :=
                q1 ++ ({ e with retransmit_count := u16 (e.retransmit_count + 1), sent_time := now } :: q2)
              ctl_packets := t.ctl_packets ++ [t.rebuild_packet e] }))
    ∧ (∀ e : retransmit_entry_t,
        (t.rebuild_packet e).buffer.header.ACK = true
        ∧ (t.rebuild_packet e).buffer.header.seq_no = e.seq_no
        ∧ (t.rebuild_packet e).buffer.header.ack_no = t.receive.next
        ∧ (t.rebuild_packet e).buffer.header.window_size = 0xFAF0
        ∧ (t.rebuild_packet e).buffer.payload = e.data_copy) := by
  refine ⟨fun h => ?_, fun q1 e q2 hq h1 he => ?_, fun e => ⟨rfl, rfl, rfl, rfl, rfl⟩⟩
  · unfold tcb_t.retransmit_segment
    rw [retransmit_find_none s now t.retransmit_queue h]
  · unfold tcb_t.retransmit_segment
    rw [hq, retransmit_find_hit s now e q2 he q1 h1]

/-- Witness for `C10_retransmit`: on the wrap fixture, looking up a
sequence number that is not queued fails and leaves the TCB unchanged,
while looking up the queued entry emits exactly its rebuilt segment. -/
theorem C10_retransmit_witness :
    c5_tcb.retransmit_segment 7 3 = (false, c5_tcb)
    ∧ c5_tcb.retransmit_segment 4294967294 3 =
        (true, { c5_tcb with
            retransmit_queue :=
              [{ seq_no := 4294967294, data_len := 4, data_copy := [9, 9, 9, 9], sent_time := 3,
                 retransmit_count := 1 }]
            ctl_packets := [c5_tcb.rebuild_packet
              { seq_no := 4294967294, data_len := 4, data_copy := [9, 9, 9, 9], sent_time := 0 }] }) := by
  constructor
  · exact (C10_retransmit c5_tcb 7 3).1 (by decide)
  · exact (C10_retransmit c5_tcb 4294967294 3).2.1 []
      { seq_no := 4294967294, data_len := 4, data_copy := [9, 9, 9, 9], sent_time := 0 } []
      (by decide) (by simp) (by decide)

/-- Helper: looking up a key right after storing it yields the stored
value. -/
theorem alookup_aupdate_self {α β : Type} [DecidableEq α] (k : α) (v : β) :
    ∀ l : List (α × β), alookup k (aupdate k v l) = some v := by
  intro l
  induction l with
  | nil => simp [alookup, aupdate]
  | cons p rest ih =>
    by_cases hk : p.1 = k
    · simp [alookup, aupdate, hk]
    · simp [alookup, aupdate, hk, ih]

/-- Helper: after the initialise-if-absent step, the statistics
record `register_tcb` reads for the port is `effective_port_stats`. -/
theorem init_stats_lookup (env : Env) (m : tcb_manager) (port : Nat) :
    (alookup port (init_port_stats env m port)).getD {} = effective_port_stats env m port := by
  cases h : alookup port m.port_stats with
  | none => simp [init_port_stats, effective_port_stats, h, alookup_aupdate_self]
  | some s => simp [init_port_stats, effective_port_stats, h]

/-- Helper: when the global or the per-port limit is reached,
`register_tcb` returns false and only bumps the rejection counter of
the port statistics. -/
theorem register_tcb_reject (env : Env) (m : tcb_manager) (two_end : two_ends_t)
    (hfail : m.max_connections ≤ m.tcbs.length
      ∨ (effective_port_stats env m two_end.local_info.port_addr).max
          ≤ (effective_port_stats env m two_end.local_info.port_addr).current) :
    register_tcb env m two_end =
      (false,
        { m with port_stats :=
                   aupdate two_end.local_info.port_addr
                     { effective_port_stats env m two_end.local_info.port_addr with
                       total_rejected :=
                         u32 ((effective_port_stats env m two_end.local_info.port_addr).total_rejected + 1) }
                     (init_port_stats env m two_end.local_info.port_addr) }) := by
  simp only [register_tcb, init_stats_lookup]
  rcases hfail with h | h
  · rw [if_pos h]
  · by_cases hg : m.max_connections ≤ m.tcbs.length
    · rw [if_pos hg]
    · rw [if_neg hg, if_pos h]

/-- C4: when an inbound segment has no TCB but targets a listened
port and admission fails (global cap reached, or the port's current
count at its cached limit), `register_tcb` returns false, bumps that
port's `total_rejected` by exactly one, creates no TCB (the `tcbs`
table is unchanged), and `receive` answers with a single RST toward
the peer instead of running the state machine. -/
theorem C4_admission (tcpIn : tcb_t → tcp_packet_t → tcb_t) (env : Env) (m : tcb_manager)
    (in_packet : tcp_packet_t) (remote loc : ipv4_port_t)
    (hr : in_packet.remote_info = some remote) (hl : in_packet.local_info = some loc)
    (habs : alookup { remote_info := remote, local_info := loc } m.tcbs = none)
    (hport : m.active_ports.contains loc = true)
    (hfail : m.max_connections ≤ m.tcbs.length
      ∨ (effective_port_stats env m loc.port_addr).max
          ≤ (effective_port_stats env m loc.port_addr).current) :
    (register_tcb env m { remote_info := remote, local_info := loc }).1 = false
    ∧ (register_tcb env m { remote_info := remote, local_info := loc }).2.tcbs = m.tcbs
    ∧ alookup loc.port_addr
        (register_tcb env m { remote_info := remote, local_info := loc }).2.port_stats
        = some { effective_port_stats env m loc.port_addr with
                 total_rejected := u32 ((effective_port_stats env m loc.port_addr).total_rejected + 1) }
    ∧ tcb_manager.receive tcpIn env m in_packet
        = ((register_tcb env m { remote_info := remote, local_info := loc }).2,
           [rx_event.rst_reject in_packet.buffer.header remote loc]) := by
  have hreg := register_tcb_reject env m { remote_info := remote, local_info := loc } hfail
  refine ⟨by rw [hreg], by rw [hreg], ?_, ?_⟩
  · rw [hreg]
    exact alookup_aupdate_self loc.port_addr _ _
  · unfold tcb_manager.receive
    rw [hr, hl]
    have hmem : loc ∈ m.active_ports := by simpa using hport
    simp [habs, hport, hreg, hmem]

/-- Witness for `C4_admission`: a manager constructed with a zero
global cap rejects the first SYN toward its listened port and emits
the RST. -/
theorem C4_admission_witness :
    tcb_manager.receive tcp_in_id env_empty m_full syn_packet
      = ((register_tcb env_empty m_full
            { remote_info := { ipv4_addr := 1, port_addr := 40000 }
              local_info := { ipv4_addr := 2, port_addr := 30000 } }).2,
         [rx_event.rst_reject syn_packet.buffer.header
            { ipv4_addr := 1, port_addr := 40000 } { ipv4_addr := 2, port_addr := 30000 }]) :=
  (C4_admission tcp_in_id env_empty m_full syn_packet
      { ipv4_addr := 1, port_addr := 40000 } { ipv4_addr := 2, port_addr := 30000 }
      rfl rfl rfl (by decide) (Or.inl (by decide))).2.2.2

/-- C7: the backlog admission step keeps the acceptors ring within the
per-listener capacity `backlog_stats.max` (128 by default, overridable
through `MAX_BACKLOG_PORT_<port>`), and every rejection for backlog
overflow increments `total_rejected` by exactly one, leaving the ring
unchanged.  Stated as preservation: from a state where `current`
mirrors the ring length and the ring is within capacity, admission
re-establishes both. -/
theorem C7_backlog (env : Env) (port : Nat) (L : listener_t) (t : tcb_t)
    (hcur : L.backlog_stats.current = L.acceptors.length)
    (hmaxr : L.backlog_stats.max < 4294967296)
    (hlen : L.acceptors.length ≤ L.backlog_stats.max) :
    ((backlog_enqueue L t).2.acceptors.length ≤ (backlog_enqueue L t).2.backlog_stats.max)
    ∧ ((backlog_enqueue L t).2.backlog_stats.max = L.backlog_stats.max)
    ∧ ((backlog_enqueue L t).2.backlog_stats.current = (backlog_enqueue L t).2.acceptors.length)
    ∧ ((backlog_enqueue L t).1 = false →
        (backlog_enqueue L t).2.backlog_stats.total_rejected = u32 (L.backlog_stats.total_rejected + 1)
        ∧ (backlog_enqueue L t).2.acceptors = L.acceptors)
    ∧ ((backlog_enqueue L t).1 = true → (backlog_enqueue L t).2.acceptors = L.acceptors ++ [t])
    ∧ (env ("MAX_BACKLOG_PORT_" ++ Nat.repr port) = none → get_backlog_limit env port = 128) := by
  by_cases hc : L.backlog_stats.current < L.backlog_stats.max
  · have hadm : backlog_enqueue L t =
        (true,
          { L with
              acceptors := L.acceptors ++ [t]
              backlog_stats :=
                { L.backlog_stats with
                    current := u32 (L.backlog_stats.current + 1)
                    total_queued := u32 (L.backlog_stats.total_queued + 1)
                    peak := max L.backlog_stats.peak (u32 (L.backlog_stats.current + 1)) } }) := by
      simp [backlog_enqueue, hc]
    have hcu : u32 (L.backlog_stats.current + 1) = L.backlog_stats.current + 1 := by
      unfold u32
      omega
    rw [hadm]
    refine ⟨?_, rfl, ?_, fun hfalse => by simp at hfalse, fun _ => rfl, fun h => by
      simp [get_backlog_limit, DEFAULT_MAX_BACKLOG, h]⟩
    · simp only [List.length_append, List.length_cons, List.length_nil]
      omega
    · simp only [List.length_append, List.length_cons, List.length_nil, hcu]
      omega
  · have hadm : backlog_enqueue L t =
        (false,
          { L with backlog_stats :=
              { L.backlog_stats with
                  total_rejected := u32 (L.backlog_stats.total_rejected + 1) } }) := by
      simp [backlog_enqueue, hc]
    rw [hadm]
    exact ⟨hlen, rfl, hcur, fun _ => ⟨rfl, rfl⟩, fun htrue => by simp at htrue,
      fun h => by simp [get_backlog_limit, DEFAULT_MAX_BACKLOG, h]⟩

/-- Witness for `C7_backlog` at the two-slot listener fixture. -/
theorem C7_backlog_witness :
    ((backlog_enqueue l_small c6_tcb).2.acceptors.length
        ≤ (backlog_enqueue l_small c6_tcb).2.backlog_stats.max)
    ∧ ((backlog_enqueue l_small c6_tcb).1 = true →
        (backlog_enqueue l_small c6_tcb).2.acceptors = l_small.acceptors ++ [c6_tcb]) :=
  ⟨(C7_backlog env_empty 30000 l_small c6_tcb rfl (by decide) (by decide)).1,
   (C7_backlog env_empty 30000 l_small c6_tcb rfl (by decide) (by decide)).2.2.2.2.1⟩

/-- Helper: whatever branch `register_tcb` takes, the `max` field the
port statistics end up with is the effective one — freshly read from
the environment on first sight of the port, the cached value
otherwise. -/
theorem register_tcb_port_max (env : Env) (m : tcb_manager) (two_end : two_ends_t) :
    (alookup two_end.local_info.port_addr (register_tcb env m two_end).2.port_stats).map
        (fun s => s.max)
      = some (effective_port_stats env m two_end.local_info.port_addr).max := by
  simp only [register_tcb, init_stats_lookup]
  by_cases hg : m.max_connections ≤ m.tcbs.length
  · rw [if_pos hg]
    simp [alookup_aupdate_self]
  · rw [if_neg hg]
    by_cases hp : (effective_port_stats env m two_end.local_info.port_addr).max
        ≤ (effective_port_stats env m two_end.local_info.port_addr).current
    · rw [if_pos hp]
      simp [alookup_aupdate_self]
    · rw [if_neg hp]
      by_cases hpk : (effective_port_stats env m two_end.local_info.port_addr).peak
          < u32 ((effective_port_stats env m two_end.local_info.port_addr).current + 1)
      · simp only [if_pos hpk]
        simp [alookup_aupdate_self]
      · simp only [if_neg hpk]
        simp [alookup_aupdate_self]

/-- C8: the global cap is the parsed `MAX_CONNECTIONS` value when it
is a positive 32-bit number and 1000 when the variable is absent,
unparsable or zero; it is read at manager construction.  The per-port
cap is the parsed `MAX_CONNECTIONS_PORT_<port>` value when positive
and the global value otherwise; it is read when the port is first
seen, cached in `port_stats[port].max`, and later registrations reuse
the cache whatever the environment then holds. -/
theorem C8_limits (env env2 : Env) (v port : Nat) (m : tcb_manager) (two_end : two_ends_t) :
    (env "MAX_CONNECTIONS" = some v → 0 < u32 v → get_max_connections env = u32 v)
    ∧ (env "MAX_CONNECTIONS" = none → get_max_connections env = 1000)
    ∧ (env "MAX_CONNECTIONS" = some v → u32 v = 0 → get_max_connections env = 1000)
    ∧ (env ("MAX_CONNECTIONS_PORT_" ++ Nat.repr port) = some v → 0 < u32 v →
        get_port_limit env port = u32 v)
    ∧ (env ("MAX_CONNECTIONS_PORT_" ++ Nat.repr port) = none →
        get_port_limit env port = get_max_connections env)
    ∧ (env ("MAX_CONNECTIONS_PORT_" ++ Nat.repr port) = some v → u32 v = 0 →
        get_port_limit env port = get_max_connections env)
    ∧ ((tcb_manager.init env).max_connections = get_max_connections env)
    ∧ (alookup two_end.local_info.port_addr m.port_stats = none →
        (alookup two_end.local_info.port_addr (register_tcb env m two_end).2.port_stats).map
            (fun s => s.max)
          = some (get_port_limit env two_end.local_info.port_addr))
    ∧ (∀ s : port_connection_stats_t,
        alookup two_end.local_info.port_addr m.port_stats = some s →
        (alookup two_end.local_info.port_addr (register_tcb env2 m two_end).2.port_stats).map
            (fun s2 => s2.max)
          = some s.max) := by
  refine ⟨fun h hpos => ?_, fun h => ?_, fun h hz => ?_, fun h hpos => ?_, fun h => ?_,
    fun h hz => ?_, rfl, fun h => ?_, fun s h => ?_⟩
  · simp [get_max_connections, h, hpos]
  · simp [get_max_connections, DEFAULT_MAX_CONNECTIONS, h]
  · simp [get_max_connections, DEFAULT_MAX_CONNECTIONS, h, hz]
  · simp [get_port_limit, h, hpos]
  · simp [get_port_limit, h]
  · simp [get_port_limit, h, hz]
  · rw [register_tcb_port_max]
    simp [effective_port_stats, h]
  · rw [register_tcb_port_max]
    simp [effective_port_stats, h]

/-- Witness for `C8_limits` on the fixture environment
(`MAX_CONNECTIONS=7`, `MAX_CONNECTIONS_PORT_30000=3`): the global cap
is 7, and registering on the fresh port 30000 caches limit 3. -/
theorem C8_limits_witness :
    get_max_connections env_w = u32 7
    ∧ (alookup 30000 (register_tcb env_w { m_full with max_connections := 7 }
          { remote_info := { ipv4_addr := 1, port_addr := 40000 }
            local_info := { ipv4_addr := 2, port_addr := 30000 } }).2.port_stats).map
        (fun s => s.max)
      = some (get_port_limit env_w 30000) :=
  ⟨(C8_limits env_w env_w 7 30000 { m_full with max_connections := 7 }
      { remote_info := { ipv4_addr := 1, port_addr := 40000 }
        local_info := { ipv4_addr := 2, port_addr := 30000 } }).1 rfl (by decide),
   (C8_limits env_w env_w 7 30000 { m_full with max_connections := 7 }
      { remote_info := { ipv4_addr := 1, port_addr := 40000 }
        local_info := { ipv4_addr := 2, port_addr := 30000 } }).2.2.2.2.2.2.2.1 rfl⟩

end uStack
